import Mathlib

/-!
Shallow embedding of the `argen` C-code generator (`src/codegen.rs`).

The Rust program deserializes a JSON argument specification into `Spec`
(positional `PItem`s and non-positional `NPItem`s), validates it with
`Spec::sanity_check` (which panics, i.e. aborts with no output, on the
first violation), and then emits a C source file via `Spec::gen`, which
concatenates `c_headers`, `c_usage`, `c_parse_args` and `c_main`.

Strings are modelled by Lean `String` (a list of characters); Rust
`String::len` (a UTF-8 byte count) is modelled by `String.utf8ByteSize`,
which has the same definition (sum of the UTF-8 sizes of the characters).
Literal brace characters in generated-code strings are written with the
escapes `\x7b` and `\x7d`.
-/

/-- Positional argument record, from `struct PItem` in `codegen.rs`. -/
structure PItem where
  c_var : String
  c_type : String
  help : Option String
deriving DecidableEq, Repr

/-- Named (non-positional) argument record, from `struct NPItem` in `codegen.rs`. -/
structure NPItem where
  c_var : String
  c_type : String
  name : String
  short : Option String
  aliases : Option (List String)
  help : Option String
  required : Option Bool
  default : Option String
deriving DecidableEq, Repr

/-- Argument specification, from `pub struct Spec` in `codegen.rs`. -/
structure Spec where
  positional : List PItem
  non_positional : List NPItem
deriving DecidableEq, Repr

/-- The whitelist `PERMITTED_C_TYPES = ["char", "char*", "int32"]` from `codegen.rs`. -/
def PERMITTED_C_TYPES : List String := ["char", "char*", "int32"]

/-- First-character class of the identifier regex `^[_a-zA-Z][_a-zA-Z0-9]*$`
used by `Spec::sanity_check`. -/
def isIdentHead (c : Char) : Bool :=
  c == '_' || ('a' ≤ c && c ≤ 'z') || ('A' ≤ c && c ≤ 'Z')

/-- Continuation-character class `[_a-zA-Z0-9]` of the identifier regex. -/
def isIdentTail (c : Char) : Bool :=
  isIdentHead c || ('0' ≤ c && c ≤ '9')

/-- Model of `identifier_re.is_match` for the anchored regex
`^[_a-zA-Z][_a-zA-Z0-9]*$` from `Spec::sanity_check`: the whole string is a
nonempty sequence of identifier characters whose head is not a digit. -/
def identifier_is_match (s : String) : Bool :=
  match s.data with
  | [] => false
  | c :: cs => isIdentHead c && cs.all isIdentTail

/-- Model of Rust `s.find(' ').is_some()`: the string contains a space
character. (`find(' ')` with a `char` pattern searches for that exact
character.) -/
def contains_space (s : String) : Bool :=
  s.data.any (fun c => c == ' ')

/-- The whitespace-check on a named argument's `name` field in
`Spec::sanity_check`: `pi.name.find(' ').is_none()`. -/
def no_space (s : String) : Bool :=
  !(contains_space s)

/-- The short-name check in `Spec::sanity_check`: `short_name.len() == 1`
when a short name is present. Rust `String::len` is the UTF-8 byte count,
modelled by `String.utf8ByteSize`. -/
def short_len_check (o : Option String) : Bool :=
  match o with
  | none => true
  | some sn => sn.utf8ByteSize == 1

/-- The alias check in `Spec::sanity_check`: every alias satisfies
`alias.find(' ').is_none()`. -/
def aliases_check (o : Option (List String)) : Bool :=
  match o with
  | none => true
  | some al => al.all (fun a => no_space a)

/-- The type-whitelist check in `Spec::sanity_check`:
`PERMITTED_C_TYPES.into_iter().any(|&tp| tp == c_type)`. -/
def type_check (t : String) : Bool :=
  PERMITTED_C_TYPES.any (fun tp => tp == t)

/-- The per-positional-argument assertions of `Spec::sanity_check`. -/
def PItem.sane (p : PItem) : Bool :=
  identifier_is_match p.c_var && type_check p.c_type

/-- The per-named-argument assertions of `Spec::sanity_check`, in source
order: identifier, type whitelist, no space in `name`, short-name length,
aliases free of spaces. -/
def NPItem.sane (np : NPItem) : Bool :=
  identifier_is_match np.c_var && type_check np.c_type &&
  no_space np.name && short_len_check np.short && aliases_check np.aliases

/-- Model of `Spec::sanity_check`: the Rust function `assert!`s each check
for every positional and non-positional item, so it succeeds (returns
rather than panicking) exactly when all checks hold. -/
def Spec.sanity_check (s : Spec) : Bool :=
  s.positional.all PItem.sane && s.non_positional.all NPItem.sane

/-- Model of a `for` loop that `push_str`s `f x` for each `x` onto an
accumulator string, as used throughout `c_parse_args`, `c_main` and
`c_usage`. -/
def pushAll (f : α → String) (l : List α) (acc : String) : String :=
  l.foldl (fun a x => a ++ f x) acc

/-- Concatenation of a list of strings (spec-side normal form for
`pushAll`). -/
def strConcat : List String → String
  | [] => ""
  | x :: xs => x ++ strConcat xs

/-- From `NPItem::decl_main`: `"\t{} {};\n"` with `c_type`, `c_var`. -/
def NPItem.decl_main (np : NPItem) : String :=
  "\t" ++ np.c_type ++ " " ++ np.c_var ++ ";\n"

/-- From `NPItem::decl_parse`: `"\tbool {}__isset = false;\n"` with `c_var`. -/
def NPItem.decl_parse (np : NPItem) : String :=
  "\tbool " ++ np.c_var ++ "__isset = false;\n"

/-- The `match &*self.c_type` inside `NPItem::gen` converting the next
token per data type; the `_` arm pushes nothing. -/
def token_assign (c_type c_var : String) : String :=
  match c_type with
  | "int32" => "\t\t\t*" ++ c_var ++ " = atoi(argv[++i]);\n"
  | "char*" => "\t\t\t*" ++ c_var ++ " = argv[++i];\n"
  | "char" => "\t\t\t*" ++ c_var ++ " = argv[++i][0];\n"
  | _ => ""

/-- From `NPItem::gen`: the in-loop match fragment for a named argument. -/
def NPItem.gen (np : NPItem) : String :=
  "\t\tif (!strcmp(argv[i], \"--" ++ np.name ++ "\") && i+1<argc) \x7b\n" ++
  token_assign np.c_type np.c_var ++
  "\t\t\t" ++ np.c_var ++ "__isset = true;\n" ++
  "\t\t\targ_count += 2;\n" ++
  "\t\t\x7d\n"

/-- The `match &*self.c_type` inside `NPItem::post_loop` rendering the
default value per data type; the `_` arm pushes nothing. -/
def default_assign (c_type c_var d : String) : String :=
  match c_type with
  | "int32" => "\t\t*" ++ c_var ++ " = " ++ d ++ ";\n"
  | "char*" => "\t\t*" ++ c_var ++ " = \"" ++ d ++ "\";\n"
  | "char" => "\t\t*" ++ c_var ++ " = \x27" ++ d ++ "\x27;\n"
  | _ => ""

/-- From `NPItem::post_loop`: the post-loop required/default fragment.
`self.required.unwrap_or(false)` is `(required).getD false`. -/
def NPItem.post_loop (np : NPItem) : String :=
  "\tif (!" ++ np.c_var ++ "__isset) \x7b\n" ++
  (if np.required.getD false then
    "\t\tusage(argv[0]);\n" ++ "\t\texit(1);\n"
  else
    match np.default with
    | some d => default_assign np.c_type np.c_var d
    | none => "") ++
  "\t\x7d\n"

/-- From `PItem::decl`: `"\t{} {};\n"` with `c_type`, `c_var`. -/
def PItem.decl (p : PItem) : String :=
  "\t" ++ p.c_type ++ " " ++ p.c_var ++ ";\n"

/-- From `PItem::gen`: positional arguments contribute no loop fragment. -/
def PItem.gen (_ : PItem) : String :=
  ""

/-- From `PItem::post_loop`: positional arguments contribute no post-loop
fragment. -/
def PItem.post_loop (_ : PItem) : String :=
  ""

/-- From `Spec::c_headers`. -/
def Spec.c_headers (_ : Spec) : String :=
  "#include<stdlib.h>\n#include<stdio.h>\n#include<string.h>"

/-- The per-named-argument help entry built by the closure inside
`Spec::c_usage`'s `map`. -/
def usage_entry (np : NPItem) : String :=
  let long := pushAll (fun a => "  --" ++ a) (np.aliases.getD [])
    ("  --" ++ np.name)
  let helpPart :=
    match np.help with
    | some h => "\n        " ++ h
    | none => ""
  match np.short with
  | some sh => "  -" ++ sh ++ long ++ helpPart ++ "\n"
  | none => "     " ++ long ++ helpPart ++ "\n"

/-- From `Spec::c_usage`: the fixed help line followed by one entry
per named argument, spliced into the `printf` template. The `\x5c`-escapes
reproduce the raw-string template: `\n` inside the C string literal is the
two characters backslash-`n`, and the help text is joined to the template
by a backslash-newline C line continuation. -/
def Spec.c_usage (s : Spec) : String :=
  let positional_usage := "[TODO ...]"
  let help := "  -h  --help\n        print this usage and exit\n" ++
    strConcat (s.non_positional.map usage_entry)
  "static void usage(const char *progname) \x7b\n\tprintf(\"usage: %s [options] " ++
  positional_usage ++ "\\n%s\", progname, \"\\\n" ++ help ++ "\");\n\x7d\n"

/-- From `Spec::c_parse_args`: seen-flag declarations, the `arg_count`
counter, the primary loop of named-argument match fragments, the reserved
positional loop, then every post-loop fragment (positional first, then
named). -/
def Spec.c_parse_args (s : Spec) : String :=
  let body := "void parse_args(int argc, char **argv /* TODO */) \x7b\n"
  let body := pushAll NPItem.decl_parse s.non_positional body
  let body := body ++ "\tint arg_count = 0;\n"
  let body := body ++ "\tfor (int i = 1; i < argc; i++) \x7b\n"
  let body := pushAll NPItem.gen s.non_positional body
  let body := body ++ "\t\x7d\n"
  let body := body ++ "\tfor (int i = arg_count; i < argc; i++) \x7b\n"
  let body := pushAll PItem.gen s.positional body
  let body := body ++ "\t\x7d\n"
  let body := pushAll PItem.post_loop s.positional body
  let body := pushAll NPItem.post_loop s.non_positional body
  body ++ "\x7d\n"

/-- From `Spec::c_main`: declarations (positional first, then named), the
`parse_args` call with the address of every variable (positional first,
then named), and the placeholder comment. -/
def Spec.c_main (s : Spec) : String :=
  let m := "int main(int argc, char **argv) \x7b\n"
  let m := pushAll PItem.decl s.positional m
  let m := pushAll NPItem.decl_main s.non_positional m
  let m := m ++ "\n\tparse_args(argc, argv"
  let m := pushAll (fun p => ", &" ++ p.c_var) s.positional m
  let m := pushAll (fun np => ", &" ++ np.c_var) s.non_positional m
  let m := m ++ ");\n\n"
  let m := m ++ "\t/* TODO: call your code here */\n"
  m ++ "\x7d\n"

/-- From `Spec::gen`: `format!("{}\n\n{}\n{}\n{}", h, usage, body, main)`. -/
def Spec.gen (s : Spec) : String :=
  s.c_headers ++ "\n\n" ++ s.c_usage ++ "\n" ++ s.c_parse_args ++ "\n" ++ s.c_main

/-- The load-then-generate pipeline: `Spec::from_reader` runs
`sanity_check` and panics (so the caller produces no output) when it
fails; otherwise `Spec::gen` produces the output text. -/
def Spec.loadAndGen (s : Spec) : Option String :=
  if s.sanity_check then some s.gen else none

/-! Helper lemmas about the embedding. -/

/-- Unfolding a `push_str` loop into the concatenation of the fragments of
the list elements, in list order. -/
theorem pushAll_eq (f : α → String) (l : List α) (acc : String) :
    pushAll f l acc = acc ++ strConcat (l.map f) := by
  induction l generalizing acc with
  | nil => simp [pushAll, strConcat]
  | cons x xs ih =>
    show pushAll f xs (acc ++ f x) = _
    rw [ih, String.append_assoc]
    rfl

/-- A string obtained by appending something that ends with a newline ends
with a newline. -/
theorem ends_with_newline_append (x y z : String) (h : y = z ++ "\n") :
    ∃ t, x ++ y = t ++ "\n" :=
  ⟨x ++ z, by rw [h, ← String.append_assoc]⟩

/-- Appending to a nonempty string yields a nonempty string. -/
theorem append_ne_empty_of_left (a b : String) (h : a.data ≠ []) :
    a ++ b ≠ "" := by
  intro he
  have hd := congrArg String.data he
  rw [String.data_append] at hd
  exact h (List.append_eq_nil.mp hd).1

/-- The type-whitelist check of `sanity_check` accepts exactly the members
of `PERMITTED_C_TYPES`. -/
theorem type_check_iff (t : String) :
    type_check t = true ↔ t ∈ PERMITTED_C_TYPES := by
  simp only [type_check, List.any_eq_true, beq_iff_eq]
  constructor
  · rintro ⟨tp, htp, rfl⟩
    exact htp
  · intro ht
    exact ⟨t, ht, rfl⟩

/-- Each character contributes at least one byte to the UTF-8 byte size. -/
theorem utf8_go_ge_length (l : List Char) :
    l.length ≤ String.utf8ByteSize.go l := by
  induction l with
  | nil => simp [String.utf8ByteSize.go]
  | cons c cs ih =>
    have := c.utf8Size_pos
    simp only [String.utf8ByteSize.go, List.length_cons]
    omega

/-- The UTF-8 byte size of a string, computed over its character list. -/
theorem utf8ByteSize_data (s : String) :
    s.utf8ByteSize = String.utf8ByteSize.go s.data := by
  cases s
  rfl

/-! Concrete sample arguments and specs used by witnesses and
counterexamples. -/

/-- A named argument that is both required and has a default, exercising
the required-vs-default precedence. -/
def portItem : NPItem :=
  ⟨"port", "int32", "port", some ("p"), none, none, some true, some ("8080")⟩

/-- A positional argument whose variable name starts with a digit. -/
def badPI : PItem :=
  ⟨"3bad", "int32", none⟩

/-- A spec containing an invalid positional argument. -/
def badSpec : Spec :=
  { positional := [badPI], non_positional := [] }

/-- A fully valid spec with one positional and one named argument. -/
def goodSpec : Spec :=
  { positional := [⟨"infile", "char*", some ("input file")⟩],
    non_positional := [portItem] }

/-! Claim theorems. -/

/-- C1: for every validated named argument, the emitted post-loop fragment
checks the seen flag and, when it is unset: if `required` is true it prints
usage and exits the generated program with status 1 (this branch is taken
even when a default is also present); otherwise a present default is
assigned, rendered per data type (integer unquoted, string double-quoted,
character single-quoted); otherwise nothing is assigned. -/
theorem c1_post_loop_required_default (np : NPItem) (_hv : np.sane = true) :
    (np.required = some true →
      np.post_loop =
        "\tif (!" ++ np.c_var ++ "__isset) \x7b\n" ++
        ("\t\tusage(argv[0]);\n" ++ "\t\texit(1);\n") ++ "\t\x7d\n") ∧
    (np.required.getD false = false →
      (∀ d, np.default = some d →
        np.post_loop =
          "\tif (!" ++ np.c_var ++ "__isset) \x7b\n" ++
          default_assign np.c_type np.c_var d ++ "\t\x7d\n" ∧
        (np.c_type = "int32" →
          default_assign np.c_type np.c_var d =
            "\t\t*" ++ np.c_var ++ " = " ++ d ++ ";\n") ∧
        (np.c_type = "char*" →
          default_assign np.c_type np.c_var d =
            "\t\t*" ++ np.c_var ++ " = \"" ++ d ++ "\";\n") ∧
        (np.c_type = "char" →
          default_assign np.c_type np.c_var d =
            "\t\t*" ++ np.c_var ++ " = \x27" ++ d ++ "\x27;\n")) ∧
      (np.default = none →
        np.post_loop =
          "\tif (!" ++ np.c_var ++ "__isset) \x7b\n" ++ "\t\x7d\n")) := by
  constructor
  · intro hr
    simp [NPItem.post_loop, hr]
  · intro hr
    constructor
    · intro d hd
      refine ⟨?_, ?_, ?_, ?_⟩
      · simp [NPItem.post_loop, hr, hd]
      · intro ht
        rw [ht]
        rfl
      · intro ht
        rw [ht]
        rfl
      · intro ht
        rw [ht]
        rfl
    · intro hd
      simp [NPItem.post_loop, hr, hd]

/-- C1 witness: `portItem` is required and also carries a default; the
required check wins. -/
theorem c1_witness :
    portItem.sane = true ∧ portItem.required = some true ∧
    portItem.default = some ("8080") ∧
    portItem.post_loop =
      "\tif (!port__isset) \x7b\n\t\tusage(argv[0]);\n\t\texit(1);\n\t\x7d\n" :=
  ⟨by decide, rfl, rfl,
    (c1_post_loop_required_default portItem (by decide)).1 rfl⟩

/-- C2: for every validated named argument, the emitted in-loop fragment
matches only the token `--<longName>` with a following token, converts the
next token per data type, assigns it, sets the seen flag, and advances
`arg_count` by exactly two; changing the short name or the aliases does
not change the fragment at all. -/
theorem c2_gen_match (np : NPItem) (hv : np.sane = true) :
    ((np.c_type = "int32" →
      np.gen =
        "\t\tif (!strcmp(argv[i], \"--" ++ np.name ++ "\") && i+1<argc) \x7b\n" ++
        ("\t\t\t*" ++ np.c_var ++ " = atoi(argv[++i]);\n") ++
        "\t\t\t" ++ np.c_var ++ "__isset = true;\n" ++
        "\t\t\targ_count += 2;\n" ++ "\t\t\x7d\n") ∧
    (np.c_type = "char*" →
      np.gen =
        "\t\tif (!strcmp(argv[i], \"--" ++ np.name ++ "\") && i+1<argc) \x7b\n" ++
        ("\t\t\t*" ++ np.c_var ++ " = argv[++i];\n") ++
        "\t\t\t" ++ np.c_var ++ "__isset = true;\n" ++
        "\t\t\targ_count += 2;\n" ++ "\t\t\x7d\n") ∧
    (np.c_type = "char" →
      np.gen =
        "\t\tif (!strcmp(argv[i], \"--" ++ np.name ++ "\") && i+1<argc) \x7b\n" ++
        ("\t\t\t*" ++ np.c_var ++ " = argv[++i][0];\n") ++
        "\t\t\t" ++ np.c_var ++ "__isset = true;\n" ++
        "\t\t\targ_count += 2;\n" ++ "\t\t\x7d\n")) ∧
    (∀ sh al, NPItem.gen { np with short := sh, aliases := al } = np.gen) := by
  refine ⟨⟨?_, ?_, ?_⟩, ?_⟩
  · intro ht
    simp [NPItem.gen, ht, token_assign]
  · intro ht
    simp [NPItem.gen, ht, token_assign]
  · intro ht
    simp [NPItem.gen, ht, token_assign]
  · intro sh al
    cases np
    rfl

/-- C2 witness: the fragment for `portItem` matches `--port` and parses
the next token with `atoi`; the fragment ignores the short name `-p`. -/
theorem c2_witness :
    portItem.sane = true ∧ portItem.c_type = "int32" ∧
    portItem.gen =
      "\t\tif (!strcmp(argv[i], \"--port\") && i+1<argc) \x7b\n\t\t\t*port = atoi(argv[++i]);\n\t\t\tport__isset = true;\n\t\t\targ_count += 2;\n\t\t\x7d\n" :=
  ⟨by decide, rfl, ((c2_gen_match portItem (by decide)).1).1 rfl⟩

/-- C3: a spec with any argument whose variable name fails the identifier
pattern, or whose data type is outside the whitelist, fails validation and
produces no output; conversely, a spec whose every argument passes all of
its per-argument checks passes validation and generation proceeds. -/
theorem c3_validation_totality (s : Spec) :
    ((∃ p ∈ s.positional,
        identifier_is_match p.c_var = false ∨ p.c_type ∉ PERMITTED_C_TYPES) ∨
     (∃ np ∈ s.non_positional,
        identifier_is_match np.c_var = false ∨ np.c_type ∉ PERMITTED_C_TYPES) →
      s.sanity_check = false ∧ s.loadAndGen = none) ∧
    ((∀ p ∈ s.positional, p.sane = true) →
     (∀ np ∈ s.non_positional, np.sane = true) →
      s.sanity_check = true ∧ s.loadAndGen = some s.gen) := by
  constructor
  · intro h
    have hsc : s.sanity_check = false := by
      rcases h with ⟨p, hp, hbad⟩ | ⟨np, hnp, hbad⟩
      · have hps : p.sane = false := by
          rcases hbad with h1 | h2
          · simp [PItem.sane, h1]
          · have ht : type_check p.c_type = false :=
              Bool.eq_false_iff.mpr (fun hb => h2 ((type_check_iff _).mp hb))
            simp [PItem.sane, ht]
        apply Bool.and_eq_false_iff.mpr
        left
        exact List.all_eq_false.mpr ⟨p, hp, by simp [hps]⟩
      · have hps : np.sane = false := by
          rcases hbad with h1 | h2
          · simp [NPItem.sane, h1]
          · have ht : type_check np.c_type = false :=
              Bool.eq_false_iff.mpr (fun hb => h2 ((type_check_iff _).mp hb))
            simp [NPItem.sane, ht]
        apply Bool.and_eq_false_iff.mpr
        right
        exact List.all_eq_false.mpr ⟨np, hnp, by simp [hps]⟩
    exact ⟨hsc, by simp [Spec.loadAndGen, hsc]⟩
  · intro h1 h2
    have hsc : s.sanity_check = true := by
      apply Bool.and_eq_true_iff.mpr
      exact ⟨List.all_eq_true.mpr h1, List.all_eq_true.mpr h2⟩
    exact ⟨hsc, by simp [Spec.loadAndGen, hsc]⟩

/-- C3 witness: `badSpec` (variable name `3bad`) fails validation with no
output; `goodSpec` passes validation and generation proceeds. -/
theorem c3_witness :
    (badSpec.sanity_check = false ∧ badSpec.loadAndGen = none) ∧
    (goodSpec.sanity_check = true ∧ goodSpec.loadAndGen = some goodSpec.gen) :=
  ⟨(c3_validation_totality badSpec).1
      (Or.inl ⟨badPI, by simp [badSpec], Or.inl (by decide)⟩),
    (c3_validation_totality goodSpec).2 (by decide) (by decide)⟩

/-- A named argument whose short name is the single character `é`, whose
UTF-8 encoding occupies two bytes. -/
def accentItem : NPItem :=
  ⟨"x", "char", "x", some ("é"), none, none, none, none⟩

/-- C4 counterexample: `accentItem` supplies a short name that is exactly
one character long, yet validation rejects it, because the code compares
`String::len` (UTF-8 bytes, here 2) with 1. -/
theorem c4_counterexample :
    accentItem.short = some ("é") ∧ ("é" : String).length = 1 ∧
    short_len_check accentItem.short = false ∧
    NPItem.sane accentItem = false := by
  refine ⟨rfl, rfl, ?_, ?_⟩ <;> decide

/-- C4 (amended): validation accepts a supplied short name if and only if
its UTF-8 encoding is exactly one byte (i.e. it is a single ASCII
character); every short name that is not exactly one character long is
still rejected. -/
theorem c4_short_name_byte_length (np : NPItem) (sn : String)
    (h : np.short = some sn) :
    (short_len_check np.short = true ↔ sn.utf8ByteSize = 1) ∧
    (sn.length ≠ 1 → short_len_check np.short = false) := by
  constructor
  · rw [h]
    simp [short_len_check]
  · intro hlen
    rw [h]
    simp only [short_len_check, beq_eq_false_iff_ne, ne_eq]
    intro hb
    have hgo : sn.utf8ByteSize = String.utf8ByteSize.go sn.data :=
      utf8ByteSize_data sn
    have hge : sn.data.length ≤ String.utf8ByteSize.go sn.data :=
      utf8_go_ge_length sn.data
    have hlen' : sn.length = sn.data.length := rfl
    have h0 : sn.data.length = 0 := by omega
    have hnil : sn.data = [] := List.length_eq_zero.mp h0
    rw [hgo, hnil] at hb
    simp [String.utf8ByteSize.go] at hb

/-- C4 witness: the one-byte short name `p` of `portItem` is accepted. -/
theorem c4_witness :
    portItem.short = some ("p") ∧
    ((short_len_check portItem.short = true ↔ ("p" : String).utf8ByteSize = 1) ∧
      (("p" : String).length ≠ 1 → short_len_check portItem.short = false)) :=
  ⟨rfl, c4_short_name_byte_length portItem ("p") rfl⟩

/-- A named argument whose long name and alias contain a tab character. -/
def tabItem : NPItem :=
  ⟨"x", "int32", "a\tb", none, some (["c\td"]), none, none, none⟩

/-- C5 counterexample: `tabItem` has a long name and an alias that contain
embedded whitespace (a tab), yet it passes every validation check: the
code only searches for the space character. -/
theorem c5_counterexample :
    tabItem.name.data.any Char.isWhitespace = true ∧
    (∃ a ∈ tabItem.aliases.getD [], a.data.any Char.isWhitespace = true) ∧
    NPItem.sane tabItem = true := by
  refine ⟨by decide, ⟨"c\td", by simp [tabItem], by decide⟩, by decide⟩

/-- C5 (amended): validation of the long name and aliases fails whenever
the long name or an alias contains a space character, and the long-name
and alias checks succeed whenever the long name and every alias are free
of the space character (other whitespace such as tabs is not rejected). -/
theorem c5_space_character_only (np : NPItem) :
    ((contains_space np.name = true ∨
        ∃ a ∈ np.aliases.getD [], contains_space a = true) →
      np.sane = false) ∧
    (contains_space np.name = false →
      (∀ a ∈ np.aliases.getD [], contains_space a = false) →
      no_space np.name = true ∧ aliases_check np.aliases = true) := by
  constructor
  · intro h
    rcases h with hn | ⟨a, ha, hs⟩
    · simp [NPItem.sane, no_space, hn]
    · rcases hal : np.aliases with _ | al
      · rw [hal] at ha
        simp at ha
      · rw [hal] at ha
        simp only [Option.getD_some] at ha
        have hac : aliases_check np.aliases = false := by
          rw [hal]
          simp only [aliases_check, List.all_eq_false]
          exact ⟨a, ha, by simp [no_space, hs]⟩
        simp [NPItem.sane, hac]
  · intro hn hal
    constructor
    · simp [no_space, hn]
    · rcases ha : np.aliases with _ | al
      · rfl
      · simp only [aliases_check, List.all_eq_true]
        intro a hmem
        have := hal a (by rw [ha]; simpa using hmem)
        simp [no_space, this]

/-- C5 witness: `portItem`, whose long name has no space and which has no
aliases, passes the long-name and alias checks. -/
theorem c5_witness :
    contains_space portItem.name = false ∧
    (no_space portItem.name = true ∧ aliases_check portItem.aliases = true) :=
  ⟨by decide,
    (c5_space_character_only portItem).2 (by decide) (by simp [portItem])⟩

/-- C6: for every spec, the generated text is the header includes, the
usage function, the parse_args function and the main function in that
fixed order; the separators are blank lines because each of the three
functions ends with a newline and is followed by a further newline, while
the header block has no trailing newline before the double newline. -/
theorem c6_section_order (s : Spec) :
    s.gen =
      s.c_headers ++ "\n\n" ++ s.c_usage ++ "\n" ++ s.c_parse_args ++ "\n" ++
        s.c_main ∧
    s.c_headers = "#include<stdlib.h>\n#include<stdio.h>\n#include<string.h>" ∧
    (∃ t, s.c_usage = t ++ "\n") ∧
    (∃ t, s.c_parse_args = t ++ "\n") ∧
    (∃ t, s.c_main = t ++ "\n") := by
  refine ⟨rfl, rfl, ?_, ?_, ?_⟩
  · simp only [Spec.c_usage]
    exact ends_with_newline_append _ _ ("\");\n\x7d") (by decide)
  · simp only [Spec.c_parse_args]
    exact ends_with_newline_append _ _ ("\x7d") (by decide)
  · simp only [Spec.c_main]
    exact ends_with_newline_append _ _ ("\x7d") (by decide)

/-- C7: within each emitted section the per-argument fragments appear as
the concatenation, in input-list order, of the per-argument emitters: the
usage entries, the seen-flag declarations, the match fragments, the
post-loop fragments (positional before named), the main-function
declarations (positional before named) and the parse_args call arguments
(positional before named). -/
theorem c7_order_preservation (s : Spec) :
    s.c_usage =
      "static void usage(const char *progname) \x7b\n\tprintf(\"usage: %s [options] " ++
      "[TODO ...]" ++ "\\n%s\", progname, \"\\\n" ++
      ("  -h  --help\n        print this usage and exit\n" ++
        strConcat (s.non_positional.map usage_entry)) ++ "\");\n\x7d\n" ∧
    s.c_parse_args =
      "void parse_args(int argc, char **argv /* TODO */) \x7b\n" ++
      strConcat (s.non_positional.map NPItem.decl_parse) ++
      "\tint arg_count = 0;\n" ++
      "\tfor (int i = 1; i < argc; i++) \x7b\n" ++
      strConcat (s.non_positional.map NPItem.gen) ++
      "\t\x7d\n" ++
      "\tfor (int i = arg_count; i < argc; i++) \x7b\n" ++
      strConcat (s.positional.map PItem.gen) ++
      "\t\x7d\n" ++
      strConcat (s.positional.map PItem.post_loop) ++
      strConcat (s.non_positional.map NPItem.post_loop) ++
      "\x7d\n" ∧
    s.c_main =
      "int main(int argc, char **argv) \x7b\n" ++
      strConcat (s.positional.map PItem.decl) ++
      strConcat (s.non_positional.map NPItem.decl_main) ++
      "\n\tparse_args(argc, argv" ++
      strConcat (s.positional.map (fun p => ", &" ++ p.c_var)) ++
      strConcat (s.non_positional.map (fun np => ", &" ++ np.c_var)) ++
      ");\n\n" ++ "\t/* TODO: call your code here */\n" ++ "\x7d\n" := by
  refine ⟨?_, ?_, ?_⟩
  · simp only [Spec.c_usage]
  · simp only [Spec.c_parse_args, pushAll_eq]
  · simp only [Spec.c_main, pushAll_eq]

/-- C8: generation is total on validated specs: a validated named
argument's data type is one of the three whitelisted types, and neither
the token-conversion match nor the default-rendering match falls through
to the empty fall-back arm. -/
theorem c8_generation_total (np : NPItem) (hv : np.sane = true) :
    (np.c_type = "char" ∨ np.c_type = "char*" ∨ np.c_type = "int32") ∧
    token_assign np.c_type np.c_var ≠ "" ∧
    (∀ d, default_assign np.c_type np.c_var d ≠ "") := by
  have htc : type_check np.c_type = true := by
    simp only [NPItem.sane, Bool.and_eq_true] at hv
    tauto
  have hmem := (type_check_iff _).mp htc
  simp only [PERMITTED_C_TYPES, List.mem_cons, List.mem_singleton,
    List.not_mem_nil, or_false] at hmem
  refine ⟨hmem, ?_, ?_⟩
  · rcases hmem with h | h | h <;>
      · rw [h]
        apply append_ne_empty_of_left
        intro hd
        simp [String.data_append] at hd
  · intro d
    rcases hmem with h | h | h <;>
      · rw [h]
        apply append_ne_empty_of_left
        intro hd
        simp [String.data_append] at hd

/-- C8 witness: `portItem` is validated, its type `int32` is whitelisted,
and neither conversion match falls through. -/
theorem c8_witness :
    portItem.sane = true ∧
    ((portItem.c_type = "char" ∨ portItem.c_type = "char*" ∨
        portItem.c_type = "int32") ∧
      token_assign portItem.c_type portItem.c_var ≠ "" ∧
      (∀ d, default_assign portItem.c_type portItem.c_var d ≠ "")) :=
  ⟨by decide, c8_generation_total portItem (by decide)⟩

/-- A named argument whose default value and help text contain double
quotes and a backslash. -/
def hostItem : NPItem :=
  ⟨"host", "char*", "host", none, none, some ("say \"hi\""), none,
    some ("a\"b\\c")⟩

/-- C9: default values and help texts are interpolated verbatim, with no
escaping: the raw double quotes and backslash of `hostItem`'s default
appear inside the emitted C string literal (breaking its delimiters), and
the raw quotes of its help text appear inside the usage text. -/
theorem c9_verbatim_interpolation :
    hostItem.default = some ("a\"b\\c") ∧
    hostItem.post_loop =
      "\tif (!host__isset) \x7b\n\t\t*host = \"a\"b\\c\";\n\t\x7d\n" ∧
    hostItem.help = some ("say \"hi\"") ∧
    usage_entry hostItem = "       --host\n        say \"hi\"\n" := by
  refine ⟨rfl, by decide, rfl, by decide⟩

/-- A named argument named `dup` bound to variable `x`. -/
def dupItem : NPItem :=
  ⟨"x", "int32", "dup", none, none, none, none, none⟩

/-- A second argument with the same variable name and long name as
`dupItem`, differing only in help text. -/
def dupItem2 : NPItem :=
  ⟨"x", "int32", "dup", none, none, some ("second"), none, none⟩

/-- A spec containing two named arguments that share a variable name and a
long name. -/
def dupSpec : Spec :=
  { positional := [], non_positional := [dupItem, dupItem2] }

/-- C10: validation imposes no uniqueness constraints: `dupSpec`'s two
named arguments share the variable name `x` and the long name `dup`, yet
validation succeeds and generation proceeds, emitting two identical
variable declarations and two identical match fragments for the token
`--dup`. -/
theorem c10_no_uniqueness :
    dupItem.c_var = dupItem2.c_var ∧ dupItem.name = dupItem2.name ∧
    dupItem ≠ dupItem2 ∧
    dupSpec.sanity_check = true ∧
    dupSpec.loadAndGen = some dupSpec.gen ∧
    dupSpec.non_positional.map NPItem.decl_main =
      ["\tint32 x;\n", "\tint32 x;\n"] ∧
    dupSpec.non_positional.map NPItem.gen = [dupItem.gen, dupItem.gen] ∧
    dupItem.gen =
      "\t\tif (!strcmp(argv[i], \"--dup\") && i+1<argc) \x7b\n\t\t\t*x = atoi(argv[++i]);\n\t\t\tx__isset = true;\n\t\t\targ_count += 2;\n\t\t\x7d\n" := by
  refine ⟨rfl, rfl, by decide, by decide, ?_, by decide, by decide, by decide⟩
  have hsc : dupSpec.sanity_check = true := by decide
  simp [Spec.loadAndGen, hsc]
